import Mathlib

/-!
Verification of the ChronyTop core (src/python/chronytop.py) against its
natural-language specification.

Shallow embedding notes:
* Python floats are modelled as rationals (`ℚ`); all the scored quantities
  and thresholds in the program are exact decimals, so the comparisons made
  by the code are faithfully reproduced over `ℚ`.
* Stateful methods are modelled as explicit state-passing functions; the
  external `chronyc` process call is modelled by passing its output
  (`Option String`, `none` = call failed/timed out) as an argument.
* Strings are processed through their character lists (`String.data`) with
  hand-rolled, kernel-reducible helpers mirroring the Python string methods
  and the concrete regular expressions used by the program.
* Display strings that interpolate formatted numbers (f-strings) are
  modelled by their fixed identifying prefix/status word; the interpolated
  digits are presentation only and carry no decision content.
-/

namespace ChronyTop

/- Batteries marks the rational-arithmetic primitives irreducible, which
prevents `decide`/`rfl` from evaluating the embedded functions on
concrete inputs; restore default reducibility locally. -/
attribute [local semireducible] Rat.add Rat.sub Rat.mul Rat.inv

/-! ## Character and string utilities (Python `str` methods) -/

/-- Whitespace recognised by Python `str.split()` / `str.strip()`
(ASCII subset: space, tab, newline, carriage return, form feed,
vertical tab). -/
def isWsC (c : Char) : Bool :=
  c = ' ' || c = '\t' || c = '\n' || c = '\x0d' || c = '\x0c' || c = '\x0b'

/-- Python `str.strip()` on a character list. -/
def stripC (l : List Char) : List Char :=
  ((l.dropWhile isWsC).reverse.dropWhile isWsC).reverse

/-- Python `str.strip()`. -/
def pyStrip (s : String) : String :=
  String.mk (stripC s.data)

/-- Accumulator for `splitWsC`: `tok` holds the current token reversed. -/
def splitWsAux : List Char → List Char → List (List Char)
  | [], tok => if tok.isEmpty then [] else [tok.reverse]
  | c :: rest, tok =>
    if isWsC c then
      if tok.isEmpty then splitWsAux rest []
      else tok.reverse :: splitWsAux rest []
    else splitWsAux rest (c :: tok)

/-- Python `str.split()` (split on whitespace runs, no empty tokens). -/
def splitWsC (l : List Char) : List (List Char) :=
  splitWsAux l []

/-- Accumulator for `splitLinesC`. -/
def splitLinesAux : List Char → List Char → List (List Char)
  | [], cur => if cur.isEmpty then [] else [cur.reverse]
  | '\x0d' :: '\n' :: rest, cur => cur.reverse :: splitLinesAux rest []
  | '\n' :: rest, cur => cur.reverse :: splitLinesAux rest []
  | '\x0d' :: rest, cur => cur.reverse :: splitLinesAux rest []
  | c :: rest, cur => splitLinesAux rest (c :: cur)

/-- Python `str.splitlines()` restricted to the separators `\n`, `\r\n`,
`\r` (the exotic Unicode separators Python also accepts never occur in
`chronyc` output and are not modelled).  The subsequent
`ln.rstrip("\n")` in the source is a no-op after `splitlines` and is
therefore omitted. -/
def splitLinesC (l : List Char) : List (List Char) :=
  splitLinesAux l []

/-- Substring test, `needle` against every suffix of `haystack`
(Python `needle in haystack`). -/
def containsSub (needle : List Char) : List Char → Bool
  | [] => needle.isPrefixOf []
  | l@(_ :: rest) => needle.isPrefixOf l || containsSub needle rest

/-- Python `needle in haystack` on strings. -/
def strContains (haystack needle : String) : Bool :=
  containsSub needle.data haystack.data

/-- Python `c in s` for a single character. -/
def hasChar (s : String) (c : Char) : Bool :=
  s.data.contains c

/-- Python `name.rstrip(">")`: drop trailing `>` characters. -/
def rstripGt (l : List Char) : List Char :=
  (l.reverse.dropWhile (fun c => c = '>')).reverse

/-! ## Numeric literal parsing (Python `int`/`float` on the token shapes
the program feeds them) -/

def digitVal (c : Char) : ℕ := c.toNat - '0'.toNat

def natOfDigits (base : ℕ) (ds : List Char) : ℕ :=
  ds.foldl (fun acc c => acc * base + digitVal c) 0

/-- Digits possibly separated by single underscores (Python `int` literal
rule: an underscore must sit between two digits); returns the digits. -/
def digitsUndAux : List Char → Option (List Char)
  | [] => some []
  | '_' :: rest =>
    match rest with
    | c :: rest' =>
      if c.isDigit then (digitsUndAux rest').map (fun ds => c :: ds) else none
    | [] => none
  | c :: rest =>
    if c.isDigit then (digitsUndAux rest).map (fun ds => c :: ds) else none

def digitsUnd : List Char → Option (List Char)
  | [] => none
  | '_' :: _ => none
  | c :: rest =>
    if c.isDigit then (digitsUndAux rest).map (fun ds => c :: ds) else none

/-- Python `int(tok)` on a whitespace-free token: optional sign, then
digits with optional single underscores between digits. -/
def pyIntTok (l : List Char) : Option ℤ :=
  match l with
  | '+' :: rest => (digitsUnd rest).map (fun ds => (natOfDigits 10 ds : ℤ))
  | '-' :: rest => (digitsUnd rest).map (fun ds => -(natOfDigits 10 ds : ℤ))
  | _ => (digitsUnd l).map (fun ds => (natOfDigits 10 ds : ℤ))

/-- Value of an integer part plus fractional digits. -/
def qOfDigits (d1 d2 : List Char) : ℚ :=
  (natOfDigits 10 d1 : ℚ) + (natOfDigits 10 d2 : ℚ) / (10 ^ d2.length)

/-- Python `float(g)` for a group matched by `[-\d.]+`: an optional
leading `-`, digits, an optional `.` with further digits; at least one
digit overall and nothing left over, otherwise `ValueError` (`none`).
(The character class excludes `+`, exponents and underscores, so the
full Python float grammar collapses to this.) -/
def pyFloatDotTok (l : List Char) : Option ℚ :=
  let (sign, l1) : ℚ × List Char :=
    match l with
    | '-' :: r => (-1, r)
    | _ => (1, l)
  let d1 := l1.takeWhile Char.isDigit
  let l2 := l1.dropWhile Char.isDigit
  match l2 with
  | [] => if d1 = [] then none else some (sign * qOfDigits d1 [])
  | '.' :: r =>
    let d2 := r.takeWhile Char.isDigit
    let l3 := r.dropWhile Char.isDigit
    if l3 = [] ∧ (d1 ≠ [] ∨ d2 ≠ []) then some (sign * qOfDigits d1 d2)
    else none
  | _ => none

/-- `TimeTop._to_seconds`: unit conversion to seconds. -/
def to_seconds (v : ℚ) (unit : String) : ℚ :=
  let u := String.mk (unit.data.map Char.toLower)
  if u = "s" then v
  else if u = "ms" then v / 1000
  else if u = "us" then v / 1000000
  else if u = "ns" then v / 1000000000
  else v

/-- Python `max` on integers (kernel-reducible, agrees with `max`). -/
def pyMax (a b : ℤ) : ℤ := if b > a then b else a

/-- Python `min` on integers. -/
def pyMin (a b : ℤ) : ℤ := if b < a then b else a

/-- Python `max` on floats (rationals here). -/
def pyMaxQ (a b : ℚ) : ℚ := if b > a then b else a

/-- Python `abs` on floats (rationals here). -/
def pyAbsQ (q : ℚ) : ℚ := if q < 0 then -q else q

/-! ## Data model -/

/-- One parsed `sources -v` row, augmented in place with `sourcestats`
fields after the merge (`parse_sources_v` initialises the `ss_*` fields
to `None`). -/
structure SourceRecord where
  ms : String
  name : String
  key : String
  stratum : Option ℤ
  poll : Option ℤ
  reach : Option ℕ
  reach_octal : String
  last_rx : Option ℤ
  offset_s : Option ℚ
  err_s : Option ℚ
  ss_np : Option ℤ
  ss_nr : Option ℤ
  ss_span_s : Option ℚ
  ss_freq_ppm : Option ℚ
  ss_fskew_ppm : Option ℚ
  ss_offset_s : Option ℚ
  ss_stddev_s : Option ℚ
  raw : String
deriving Repr, DecidableEq

/-- The scalar fields extracted by `parse_tracking`. -/
structure TrackingRec where
  offset : ℚ
  rms : ℚ
  freq : ℚ
  skew : ℚ
deriving Repr, DecidableEq

/-- One `_chrony_cache` entry: `{"out": .., "last_try": .., "last_ok": ..,
"interval": ..}`.  Timestamps come from `time.monotonic()` and are
modelled as rationals; `last_try`/`last_ok` are initialised to `0.0`. -/
structure CacheEntry where
  out : Option String
  last_try : ℚ
  last_ok : ℚ
  interval : ℚ
deriving Repr, DecidableEq

/-- The three `chronyc` query names the cache knows. -/
inductive QueryName
  | tracking
  | sources_v
  | sourcestats_v
deriving Repr, DecidableEq

/-- The whole `_chrony_cache` dictionary. -/
structure ChronyCache where
  tracking : CacheEntry
  sources_v : CacheEntry
  sourcestats_v : CacheEntry
deriving Repr, DecidableEq

def initEntry (interval : ℚ) : CacheEntry :=
  { out := none, last_try := 0, last_ok := 0, interval := interval }

/-- The cache as built in `TimeTop.__init__` (refresh intervals
1 s / 5 s / 20 s). -/
def initCache : ChronyCache :=
  { tracking := initEntry 1, sources_v := initEntry 5, sourcestats_v := initEntry 20 }

def getEntry (c : ChronyCache) : QueryName → CacheEntry
  | .tracking => c.tracking
  | .sources_v => c.sources_v
  | .sourcestats_v => c.sourcestats_v

def setEntry (c : ChronyCache) : QueryName → CacheEntry → ChronyCache
  | .tracking, e => { c with tracking := e }
  | .sources_v, e => { c with sources_v := e }
  | .sourcestats_v, e => { c with sourcestats_v := e }

/-- Result of `chrony_age`: the source returns `None` for an unknown
query name, `float("inf")` when no call has ever succeeded, and a float
otherwise. -/
inductive AgeVal
  | missing
  | infty
  | fin (t : ℚ)
deriving Repr, DecidableEq

/-! ## Command cache (`run_chronyc` modelled as the passed-in `fresh`
output: `none` = timeout / exception, i.e. the Python `return None`) -/

/-- `TimeTop.chrony_out_is_error` on a non-`None` output string. -/
def chrony_out_is_error (out : String) : Bool :=
  let s := pyStrip out
  if s = "" then true
  else
    ["Cannot talk to daemon",
     "506",
     "Could not open command socket",
     "Connection refused",
     "No such file or directory",
     "Operation not permitted"].any (fun n => strContains s n)

/-- `TimeTop.chrony_out_is_error` including the `out is None` case. -/
def chrony_out_is_errorO : Option String → Bool
  | none => true
  | some s => chrony_out_is_error s

/-- The acceptance test of `chronyc_cached`: output is kept only when it
is non-`None`, non-blank and not an error signature. -/
def acceptOut : Option String → Bool
  | none => false
  | some s => (pyStrip s ≠ "" : Bool) && !chrony_out_is_error s

/-- One `chronyc_cached` call on a single entry: `now` is
`time.monotonic()`, `fresh` the result of `run_chronyc`. -/
def cachedStep (e : CacheEntry) (now : ℚ) (fresh : Option String) : CacheEntry :=
  if now - e.last_try ≥ e.interval ∨ e.out = none then
    let e' := { e with last_try := now }
    if acceptOut fresh then { e' with out := fresh, last_ok := now }
    else e'
  else e

/-- `TimeTop.chronyc_cached` for a known query name: returns the (possibly
stale) cached output and the updated cache.  (For an unknown command the
source bypasses the cache entirely; `QueryName` covers exactly the known
names.) -/
def chronyc_cached (c : ChronyCache) (q : QueryName) (now : ℚ)
    (fresh : Option String) : Option String × ChronyCache :=
  let e := cachedStep (getEntry c q) now fresh
  (e.out, setEntry c q e)

/-- `TimeTop.chrony_age` for a known query name. -/
def chrony_age (c : ChronyCache) (q : QueryName) (now : ℚ) : AgeVal :=
  let e := getEntry c q
  if e.last_ok ≤ 0 then .infty
  else .fin (pyMaxQ 0 (now - e.last_ok))

/-! ## Reach visualization (`TimeTop.reach_dots`) -/

/-- `TimeTop.reach_dots`: 8-bit dot bar, newest poll leftmost when
`newest_left` (bit `i` of the register is the poll `i` intervals ago,
bit 0 most recent). -/
def reach_dots (reach : Option ℕ) (newest_left : Bool := true) : String :=
  match reach with
  | none => "????????"
  | some r =>
    let bits := (List.range 8).map (fun i => (r >>> i) &&& 1)
    let bits := if newest_left then bits.reverse else bits
    String.mk (bits.map (fun b => if b ≠ 0 then '●' else '○'))

/-- Re-encode a newest-first dot bar back into the register (leftmost
dot is bit 7, rightmost is bit 0). -/
def dots_to_reach (s : String) : ℕ :=
  s.data.foldl (fun acc c => acc * 2 + (if c = '●' then 1 else 0)) 0

/-! ## Tracking parser (`TimeTop.parse_tracking`)

The two regular expression shapes used are
`LABEL\s+:\s+([-\d.]+)` (for RMS offset / Frequency / Skew) and
`System time\s+:\s+([-\d.]+)\s+seconds\s+(slow|fast)`.
In both, each `\s+`/character-class repetition is followed by a
character disjoint from the repeated class, so maximal munch is exact
and backtracking never changes the outcome; the scan below therefore
implements `re.search` (leftmost match) precisely for these patterns. -/

/-- After the literal label: `\s+ : \s+` then the group `[-\d.]+`
(non-empty).  Returns the matched group and the remaining text. -/
def matchLabelTail (l : List Char) : Option (List Char × List Char) :=
  let w1 := l.takeWhile isWsC
  let l1 := l.dropWhile isWsC
  if w1 = [] then none
  else
    match l1 with
    | ':' :: l2 =>
      let w2 := l2.takeWhile isWsC
      let l3 := l2.dropWhile isWsC
      if w2 = [] then none
      else
        let g := l3.takeWhile (fun c => c.isDigit || c = '-' || c = '.')
        let l4 := l3.dropWhile (fun c => c.isDigit || c = '-' || c = '.')
        if g = [] then none else some (g, l4)
    | _ => none

/-- Try the pattern `label\s+:\s+([-\d.]+)` anchored at the start. -/
def tryLabelAt (label l : List Char) : Option (List Char × List Char) :=
  if label.isPrefixOf l then matchLabelTail (l.drop label.length)
  else none

/-- `re.search(label + r"\s+:\s+([-\d.]+)", ...)`: scan left to right.
(The labels used are non-empty literals.) -/
def searchLabel (label : List Char) : List Char → Option (List Char × List Char)
  | [] => none
  | l@(_ :: rest) =>
    match tryLabelAt label l with
    | some r => some r
    | none => searchLabel label rest

/-- Anchored tail of the `System time` pattern after the group:
`\s+seconds\s+(slow|fast)`; returns `true` for `fast`. -/
def tryDirTail (l : List Char) : Option Bool :=
  let w := l.takeWhile isWsC
  let l1 := l.dropWhile isWsC
  if w = [] then none
  else if ("seconds".data).isPrefixOf l1 then
    let l2 := l1.drop 7
    let w2 := l2.takeWhile isWsC
    let l3 := l2.dropWhile isWsC
    if w2 = [] then none
    else if ("slow".data).isPrefixOf l3 then some false
    else if ("fast".data).isPrefixOf l3 then some true
    else none
  else none

/-- Try `System time\s+:\s+([-\d.]+)\s+seconds\s+(slow|fast)` anchored at
the start; returns the numeric group and the direction. -/
def tryTrackAt (l : List Char) : Option (List Char × Bool) :=
  if ("System time".data).isPrefixOf l then
    match matchLabelTail (l.drop 11) with
    | some (g, l4) =>
      match tryDirTail l4 with
      | some dir => some (g, dir)
      | none => none
    | none => none
  else none

/-- `re.search` for the `System time .. (slow|fast)` pattern. -/
def searchSystime : List Char → Option (List Char × Bool)
  | [] => none
  | l@(_ :: rest) =>
    match tryTrackAt l with
    | some r => some r
    | none => searchSystime rest

/-- `TimeTop._search_float`: `float(m.group(1))` may raise `ValueError`
(modelled as `.error ()`) when the matched group is not a valid float,
e.g. a lone `.`. -/
def search_float (label : List Char) (l : List Char) : Except Unit (Option ℚ) :=
  match searchLabel label l with
  | none => .ok none
  | some (g, _) =>
    match pyFloatDotTok g with
    | some v => .ok (some v)
    | none => .error ()

/-- The offset extraction of `parse_tracking`: sign of the parsed
magnitude flipped when the direction word is `slow`, kept when `fast`;
`float` on the matched group may raise. -/
def trackOffset (l : List Char) : Except Unit (Option ℚ) :=
  match searchSystime l with
  | some (g, dir) =>
    match pyFloatDotTok g with
    | some v => .ok (some (if dir then v else -v))
    | none => .error ()
  | none => .ok none

/-- `TimeTop.parse_tracking`.  `.ok none` is the Python `return None`
(empty input), `.error ()` a propagated `ValueError` from `float` (the
Python method raises as soon as one field's literal fails to convert;
since all failures carry the same `()` value, the sequentialisation
order does not affect the result). -/
def parse_tracking (out : String) : Except Unit (Option TrackingRec) :=
  if out = "" then .ok none
  else
    match trackOffset out.data, search_float "RMS offset".data out.data,
        search_float "Frequency".data out.data, search_float "Skew".data out.data with
    | .ok o, .ok r, .ok f, .ok k =>
      .ok (some { offset := o.getD 0, rms := r.getD 0, freq := f.getD 0, skew := k.getD 0 })
    | _, _, _, _ => .error ()

/-! ## Sources parser (`TimeTop.parse_sources_v`) -/

/-- First character class of the data-line pattern
`^[\^\=\#\?\~\-\+]{1,2}[\*\+\-\?x]?\s`. -/
def inMsClass1 (c : Char) : Bool :=
  c = '^' || c = '=' || c = '#' || c = '?' || c = '~' || c = '-' || c = '+'

/-- Second character class of the data-line pattern. -/
def inMsClass2 (c : Char) : Bool :=
  c = '*' || c = '+' || c = '-' || c = '?' || c = 'x'

/-- `re.match(r"^[\^\=\#\?\~\-\+]{1,2}[\*\+\-\?x]?\s", ln)` as a boolean:
a match exists iff 1 or 2 class-1 characters, optionally one class-2
character, are followed by a whitespace character. -/
def msLineMatch : List Char → Bool
  | c0 :: c1 :: c2 :: c3 :: _ =>
    inMsClass1 c0 &&
      (isWsC c1 ||
       (inMsClass2 c1 && isWsC c2) ||
       (inMsClass1 c1 && (isWsC c2 || (inMsClass2 c2 && isWsC c3))))
  | [c0, c1, c2] =>
    inMsClass1 c0 &&
      (isWsC c1 ||
       (inMsClass2 c1 && isWsC c2) ||
       (inMsClass1 c1 && isWsC c2))
  | [c0, c1] => inMsClass1 c0 && isWsC c1
  | _ => false

/-- The data-line accumulation loop of `parse_sources_v`: a `====`
divider resets the accumulator (only the last table section is kept);
blank lines and the `MS `/`Name/IP` headers are skipped. -/
def collectDataLines : List (List Char) → List (List Char) → List (List Char)
  | [], acc => acc
  | ln :: rest, acc =>
    if ("====".data).isPrefixOf ln then collectDataLines rest []
    else if stripC ln = [] then collectDataLines rest acc
    else if ("MS ".data).isPrefixOf ln ∨ ("Name/IP".data).isPrefixOf ln then
      collectDataLines rest acc
    else if msLineMatch ln then collectDataLines rest (acc ++ [ln])
    else collectDataLines rest acc

/-- Unit alternation `(ns|us|ms|s)`: the first character determines the
only alternative that can match, so ordered alternation is equivalent to
this direct match. -/
def matchUnit : List Char → Option (String × List Char)
  | 'n' :: 's' :: rest => some ("ns", rest)
  | 'u' :: 's' :: rest => some ("us", rest)
  | 'm' :: 's' :: rest => some ("ms", rest)
  | 's' :: rest => some ("s", rest)
  | _ => none

/-- Anchored match of `([+\-]?\d+(?:\.\d+)?)(ns|us|ms|s)` and, when
`reqBracket`, a following `[` (the offset pattern requires the sample
to be of the `..ns[` form).  Returns the signed magnitude and the unit.
Maximal munch is exact here: digits, `.`, the unit letters and `[` are
pairwise disjoint at each boundary. -/
def matchNumUnitAt (reqBracket : Bool) (l : List Char) : Option (ℚ × String) :=
  let (sign, l1) : ℚ × List Char :=
    match l with
    | '+' :: r => (1, r)
    | '-' :: r => (-1, r)
    | _ => (1, l)
  let d1 := l1.takeWhile Char.isDigit
  let l2 := l1.dropWhile Char.isDigit
  if d1 = [] then none
  else
    let (d2, l3) : List Char × List Char :=
      match l2 with
      | '.' :: r =>
        let ds := r.takeWhile Char.isDigit
        if ds = [] then ([], l2) else (ds, r.dropWhile Char.isDigit)
      | _ => ([], l2)
    match matchUnit l3 with
    | none => none
    | some (u, l4) =>
      if reqBracket then
        match l4 with
        | '[' :: _ => some (sign * qOfDigits d1 d2, u)
        | _ => none
      else some (sign * qOfDigits d1 d2, u)

/-- `re.search(r"([+\-]?\d+(?:\.\d+)?)(ns|us|ms|s)\[", rest)`. -/
def searchSample : List Char → Option (ℚ × String)
  | [] => none
  | l@(_ :: rest) =>
    match matchNumUnitAt true l with
    | some r => some r
    | none => searchSample rest

/-- Anchored match of the error-bound pattern: the literal plus-slash-minus,
then `\s*([+\-]?\d+(?:\.\d+)?)(ns|us|ms|s)`. -/
def tryErrAt (l : List Char) : Option (ℚ × String) :=
  match l with
  | '+' :: '/' :: '-' :: r => matchNumUnitAt false (r.dropWhile isWsC)
  | _ => none

/-- `re.search` for the error-bound (plus-slash-minus) pattern. -/
def searchErr : List Char → Option (ℚ × String)
  | [] => none
  | l@(_ :: rest) =>
    match tryErrAt l with
    | some r => some r
    | none => searchErr rest

/-- `" ".join(parts)`. -/
def joinSpace (parts : List (List Char)) : List Char :=
  (parts.intersperse [' ']).flatten

/-- Non-empty all-octal-digit test,
`re.match(r"^[0-7]+$", reach_raw)` (tokens from `split()` contain no
newline, so `$` is exact end). -/
def isOctalTok (l : List Char) : Bool :=
  !l.isEmpty && l.all (fun c => '0' ≤ c && c ≤ '7')

/-- Parse one accepted data line into a `SourceRecord` (`none` when the
line has fewer than six whitespace-separated tokens). -/
def parseSourceLine (ln : List Char) : Option SourceRecord :=
  let parts := splitWsC ln
  if parts.length < 6 then none
  else
    let ms := parts.getD 0 []
    let name := parts.getD 1 []
    let reach_raw := parts.getD 4 []
    let rest := joinSpace (parts.drop 6)
    some
      { ms := String.mk ms
        name := String.mk name
        key := String.mk (rstripGt name)
        stratum := pyIntTok (parts.getD 2 [])
        poll := pyIntTok (parts.getD 3 [])
        reach := if isOctalTok reach_raw then some (natOfDigits 8 reach_raw) else none
        reach_octal := String.mk reach_raw
        last_rx := pyIntTok (parts.getD 5 [])
        offset_s := (searchSample rest).map (fun vu => to_seconds vu.1 vu.2)
        err_s := (searchErr rest).map (fun vu => to_seconds vu.1 vu.2)
        ss_np := none
        ss_nr := none
        ss_span_s := none
        ss_freq_ppm := none
        ss_fskew_ppm := none
        ss_offset_s := none
        ss_stddev_s := none
        raw := String.mk ln }

/-- `TimeTop.parse_sources_v` (the `out is None` Python case is the
empty string here). -/
def parse_sources_v (out : String) : List SourceRecord :=
  if out = "" then []
  else
    ((collectDataLines (splitLinesC out.data) []).filterMap parseSourceLine)

/-! ## Trust scorer (`TimeTop.source_trust`)

The Python method accumulates `score` (always integer-valued, start
`100.0`, only integer updates, final `int(score)` after clamping) and
appends flag codes to `flags` in rule order.  Each contiguous rule block
is one state-transforming function here, composed in source order. -/

/-- Mode-state block of `source_trust`. -/
def trustMode (ms : String) (sf : ℤ × List String) : ℤ × List String :=
  let sf := if hasChar ms '?' then (sf.1 - 55, sf.2 ++ ["UNREACH"]) else sf
  let sf := if hasChar ms 'x' then (sf.1 - 45, sf.2 ++ ["BAD"]) else sf
  let sf := if hasChar ms '~' then (sf.1 - 20, sf.2 ++ ["TOO_VAR"]) else sf
  let sf := if hasChar ms '*' then (sf.1 + 5, sf.2) else sf
  let sf := if hasChar ms '+' then (sf.1 + 2, sf.2) else sf
  sf

/-- Reachability block of `source_trust` (`0o17 = 15`). -/
def trustReach (reach : Option ℕ) (sf : ℤ × List String) : ℤ × List String :=
  match reach with
  | none => (sf.1 - 10, sf.2 ++ ["NO_RCH"])
  | some r =>
    if r = 0 then (sf.1 - 45, sf.2 ++ ["RCH=0"])
    else if r < 15 then (sf.1 - 15, sf.2 ++ ["LOW_RCH"])
    else sf

/-- Last-receive block of `source_trust`. -/
def trustRx (last_rx : Option ℤ) (sf : ℤ × List String) : ℤ × List String :=
  match last_rx with
  | none => (sf.1 - 10, sf.2 ++ ["NO_RX"])
  | some rx =>
    if rx > 256 then (sf.1 - 25, sf.2 ++ ["STALE"])
    else if rx > 64 then (sf.1 - 15, sf.2 ++ ["AGING"])
    else sf

/-- Measured-offset block of `source_trust` (note: the mildest tier,
`2 < |off| ≤ 10` ms, deducts 5 without appending a flag). -/
def trustOff (off : Option ℚ) (sf : ℤ × List String) : ℤ × List String :=
  match off with
  | some o =>
    let off_ms := pyAbsQ o * 1000
    if off_ms > 50 then (sf.1 - 35, sf.2 ++ ["OFF>50ms"])
    else if off_ms > 10 then (sf.1 - 15, sf.2 ++ ["OFF>10ms"])
    else if off_ms > 2 then (sf.1 - 5, sf.2)
    else sf
  | none => (sf.1 - 6, sf.2 ++ ["NO_OFF"])

/-- Error-bound block of `source_trust` (no absolute value in the
source, and no deduction when the bound is absent). -/
def trustErr (err : Option ℚ) (sf : ℤ × List String) : ℤ × List String :=
  match err with
  | some e =>
    let err_ms := e * 1000
    if err_ms > 100 then (sf.1 - 18, sf.2 ++ ["ERR>100ms"])
    else if err_ms > 50 then (sf.1 - 12, sf.2 ++ ["ERR>50ms"])
    else if err_ms > 10 then (sf.1 - 6, sf.2 ++ ["ERR>10ms"])
    else sf
  | none => sf

/-- Regression-stddev block of `source_trust`. -/
def trustSd (stddev : Option ℚ) (sf : ℤ × List String) : ℤ × List String :=
  match stddev with
  | none => (sf.1 - 6, sf.2 ++ ["NO_SD"])
  | some sd =>
    let sd_ms := sd * 1000
    if sd_ms > 15 then (sf.1 - 30, sf.2 ++ ["SD>15ms"])
    else if sd_ms > 5 then (sf.1 - 18, sf.2 ++ ["SD>5ms"])
    else if sd_ms > 1 then (sf.1 - 7, sf.2 ++ ["SD>1ms"])
    else sf

/-- Frequency-skew block of `source_trust` (the absent case and the
mildest tier, `0.5 < fskew ≤ 1`, deduct 3 without appending a flag). -/
def trustFskew (fskew : Option ℚ) (sf : ℤ × List String) : ℤ × List String :=
  match fskew with
  | none => (sf.1 - 3, sf.2)
  | some f =>
    if f > 2 then (sf.1 - 12, sf.2 ++ ["FSKEW>2"])
    else if f > 1 then (sf.1 - 7, sf.2 ++ ["FSKEW>1"])
    else if f > 1/2 then (sf.1 - 3, sf.2)
    else sf

/-- Stratum block of `source_trust` (the absent case deducts 3 without
appending a flag). -/
def trustStratum (st : Option ℤ) (sf : ℤ × List String) : ℤ × List String :=
  match st with
  | none => (sf.1 - 3, sf.2)
  | some s =>
    if s ≤ 2 then (sf.1 + 2, sf.2)
    else if s ≥ 10 then (sf.1 - 8, sf.2 ++ ["HI_STR"])
    else sf

/-- `TimeTop.source_trust`: trust score (0–100), flag list in append
order, and colour (1 = ok, 2 = warn, 3 = critical). -/
def source_trust (src : SourceRecord) : ℤ × List String × ℕ :=
  let sf :=
    trustStratum src.stratum
      (trustFskew src.ss_fskew_ppm
        (trustSd src.ss_stddev_s
          (trustErr src.err_s
            (trustOff src.offset_s
              (trustRx src.last_rx
                (trustReach src.reach
                  (trustMode src.ms (100, []))))))))
  let score := pyMax 0 (pyMin 100 sf.1)
  let col : ℕ :=
    if score ≥ 80 ∧ "UNREACH" ∉ sf.2 ∧ "BAD" ∉ sf.2 then 1
    else if score ≥ 55 then 2
    else 3
  (score, sf.2, col)

/-! ### Spec-side trust scorer

Independent per-category adjustments exactly as the specification lists
them (tiers within a category are mutually exclusive, read top-down);
used to state the refinement claim about `source_trust`. -/

def modeAdj (ms : String) : ℤ :=
  (if hasChar ms '?' then -55 else 0) + (if hasChar ms 'x' then -45 else 0) +
    (if hasChar ms '~' then -20 else 0) + (if hasChar ms '*' then 5 else 0) +
    (if hasChar ms '+' then 2 else 0)

def reachAdj : Option ℕ → ℤ
  | none => -10
  | some r => if r = 0 then -45 else if r < 15 then -15 else 0

def rxAdj : Option ℤ → ℤ
  | none => -10
  | some rx => if rx > 256 then -25 else if rx > 64 then -15 else 0

def offAdj : Option ℚ → ℤ
  | none => -6
  | some o =>
    if pyAbsQ o * 1000 > 50 then -35
    else if pyAbsQ o * 1000 > 10 then -15
    else if pyAbsQ o * 1000 > 2 then -5
    else 0

def errAdj : Option ℚ → ℤ
  | none => 0
  | some e =>
    if e * 1000 > 100 then -18
    else if e * 1000 > 50 then -12
    else if e * 1000 > 10 then -6
    else 0

def sdAdj : Option ℚ → ℤ
  | none => -6
  | some sd =>
    if sd * 1000 > 15 then -30
    else if sd * 1000 > 5 then -18
    else if sd * 1000 > 1 then -7
    else 0

def fskewAdj : Option ℚ → ℤ
  | none => -3
  | some f => if f > 2 then -12 else if f > 1 then -7 else if f > 1/2 then -3 else 0

def stratumAdj : Option ℤ → ℤ
  | none => -3
  | some s => if s ≤ 2 then 2 else if s ≥ 10 then -8 else 0

/-- Spec-side score: 100 plus the independent category adjustments,
clamped to [0, 100]. -/
def specScore (src : SourceRecord) : ℤ :=
  pyMax 0 (pyMin 100
    (100 + modeAdj src.ms + reachAdj src.reach + rxAdj src.last_rx +
      offAdj src.offset_s + errAdj src.err_s + sdAdj src.ss_stddev_s +
      fskewAdj src.ss_fskew_ppm + stratumAdj src.stratum))

/-- Spec-side severity: ok iff score ≥ 80 with neither the unreachable
(`?`) nor the bad (`x`) marker, warn iff score ≥ 55 otherwise, else
critical. -/
def specSeverity (src : SourceRecord) : ℕ :=
  if specScore src ≥ 80 ∧ hasChar src.ms '?' = false ∧ hasChar src.ms 'x' = false then 1
  else if specScore src ≥ 55 then 2
  else 3

def modeFlags (ms : String) : List String :=
  (if hasChar ms '?' then ["UNREACH"] else []) ++ (if hasChar ms 'x' then ["BAD"] else []) ++
    (if hasChar ms '~' then ["TOO_VAR"] else [])

def reachFlags : Option ℕ → List String
  | none => ["NO_RCH"]
  | some r => if r = 0 then ["RCH=0"] else if r < 15 then ["LOW_RCH"] else []

def rxFlags : Option ℤ → List String
  | none => ["NO_RX"]
  | some rx => if rx > 256 then ["STALE"] else if rx > 64 then ["AGING"] else []

/-- Offset flags: the mildest firing tier (between 2 ms and 10 ms) is
silent. -/
def offFlags : Option ℚ → List String
  | none => ["NO_OFF"]
  | some o =>
    if pyAbsQ o * 1000 > 50 then ["OFF>50ms"]
    else if pyAbsQ o * 1000 > 10 then ["OFF>10ms"]
    else []

def errFlags : Option ℚ → List String
  | none => []
  | some e =>
    if e * 1000 > 100 then ["ERR>100ms"]
    else if e * 1000 > 50 then ["ERR>50ms"]
    else if e * 1000 > 10 then ["ERR>10ms"]
    else []

def sdFlags : Option ℚ → List String
  | none => ["NO_SD"]
  | some sd =>
    if sd * 1000 > 15 then ["SD>15ms"]
    else if sd * 1000 > 5 then ["SD>5ms"]
    else if sd * 1000 > 1 then ["SD>1ms"]
    else []

/-- Frequency-skew flags: the absent case and the mildest firing tier
(between 0.5 and 1 ppm) are silent. -/
def fskewFlags : Option ℚ → List String
  | none => []
  | some f => if f > 2 then ["FSKEW>2"] else if f > 1 then ["FSKEW>1"] else []

/-- Stratum flags: the absent case (which deducts 3) is silent. -/
def stratumFlags : Option ℤ → List String
  | none => []
  | some s => if s ≤ 2 then [] else if s ≥ 10 then ["HI_STR"] else []

/-- The flag list `source_trust` produces, category by category in rule
order. -/
def specFlagList (src : SourceRecord) : List String :=
  modeFlags src.ms ++ reachFlags src.reach ++ rxFlags src.last_rx ++
    offFlags src.offset_s ++ errFlags src.err_s ++ sdFlags src.ss_stddev_s ++
    fskewFlags src.ss_fskew_ppm ++ stratumFlags src.stratum

/-! ## Network-noise indicator (`TimeTop.network_noise_indicator`)

The display text interpolates the stddev/ratio values; only its fixed
prefix and classification word (and the colour) are modelled. -/

/-- Insertion into a sorted list of rationals. -/
def insQ (x : ℚ) : List ℚ → List ℚ
  | [] => [x]
  | y :: ys => if x ≤ y then x :: y :: ys else y :: insQ x ys

/-- `sorted` (insertion sort; sorted lists of a multiset are unique, so
this agrees element-wise with Python's sort). -/
def sortQ (xs : List ℚ) : List ℚ :=
  xs.foldr insQ []

/-- `statistics.median`: middle element for odd length, mean of the two
middle elements for even length (callers guarantee non-empty input). -/
def median (xs : List ℚ) : ℚ :=
  let s := sortQ xs
  let n := s.length
  if n % 2 = 1 then s.getD (n / 2) 0
  else (s.getD (n / 2 - 1) 0 + s.getD (n / 2) 0) / 2

/-- Reference-source selection: first record with a `*` marker, else the
first record (used identically by `network_noise_indicator` and
`selected_poll_seconds`). -/
def pickRef (sources : List SourceRecord) : Option SourceRecord :=
  match sources.find? (fun s => hasChar s.ms '*') with
  | some s => some s
  | none => sources.head?

/-- `TimeTop.network_noise_indicator`: status text (numeric
interpolations elided) and colour. -/
def network_noise_indicator (sources : List SourceRecord) : String × ℕ :=
  match pickRef sources with
  | none => ("Net noise: -", 2)
  | some sel =>
    match sel.ss_stddev_s with
    | none => ("Net noise: no sourcestats stddev for selected", 2)
    | some sel_sd =>
      let sds := sources.filterMap (fun s => s.ss_stddev_s)
      if sds.length < 2 then ("Net noise: insufficient sources with stddev", 2)
      else
        let med := median sds
        let floor : ℚ := 50 / 1000000
        let ratio := sel_sd / pyMaxQ med floor
        let abs_gap_ms := sel_sd * 1000 - med * 1000
        if ratio ≥ 3 ∧ abs_gap_ms ≥ 1/2 then ("Net noise: OUTLIER", 3)
        else if ratio ≥ 2 ∧ abs_gap_ms ≥ 1/5 then ("Net noise: ELEVATED", 2)
        else ("Net noise: OK", 1)

/-! ## Sync health (`TimeTop.chrony_sync_health`) -/

/-- The `ages` dictionary handed to `chrony_sync_health` (values of
`chrony_age` for the three queries). -/
structure Ages where
  tracking : AgeVal
  sources_v : AgeVal
  sourcestats_v : AgeVal
deriving Repr, DecidableEq

/-- Python `a is not None and a > t` on an age value (`inf > t` is
true). -/
def ageGT (a : AgeVal) (t : ℚ) : Bool :=
  match a with
  | .missing => false
  | .infty => true
  | .fin q => q > t

def countSelected (sources : List SourceRecord) : ℕ :=
  sources.countP (fun s => hasChar s.ms '*')

def countCombined (sources : List SourceRecord) : ℕ :=
  sources.countP (fun s => hasChar s.ms '+')

def countReachable (sources : List SourceRecord) : ℕ :=
  sources.countP (fun s =>
    match s.reach with
    | some r => decide (0 < r)
    | none => false)

def anyRxRecent (sources : List SourceRecord) : Bool :=
  sources.any (fun s =>
    match s.last_rx with
    | some rx => decide (rx ≤ 256)
    | none => false)

/-- `TimeTop.chrony_sync_health` (staleness thresholds 5 s / 15 s / 60 s;
the interpolated age in the staleness texts is elided). -/
def chrony_sync_health (sources : List SourceRecord) (ages : Ages) :
    List (String × ℕ) :=
  if ages.tracking = .infty ∨ ages.sources_v = .infty then
    [("CHRONYD DOWN / NO DATA (never got valid chronyc output)", 3)]
  else
    let alerts :=
      (if ageGT ages.tracking 5 then [("CHRONYC STALE: tracking age", 3)] else []) ++
        (if ageGT ages.sources_v 15 then [("CHRONYC STALE: sources age", 3)] else []) ++
        (if ageGT ages.sourcestats_v 60 then [("CHRONYC STALE: sourcestats age", 2)] else [])
    if ageGT ages.sources_v 15 then alerts
    else if sources = [] then alerts ++ [("NO NTP SOURCES PARSED", 3)]
    else
      let reachable := countReachable sources
      let selected := countSelected sources
      let combined := countCombined sources
      let alerts := alerts ++
        (if reachable = 0 then [("NO REACHABLE NTP SOURCES (reach=0 across all)", 3)] else []) ++
        (if selected = 0 then [("NO SELECTED SOURCE (* missing) — UNSYNCED", 3)] else []) ++
        (if anyRxRecent sources = false then [("ALL SOURCES STALE (LastRx very old)", 3)] else [])
      if reachable = 1 then alerts ++ [("DEGRADED: only one reachable source", 2)]
      else if 2 ≤ reachable ∧ 1 ≤ selected ∧ 1 ≤ combined ∧ alerts = [] then
        alerts ++ [("CHRONY SYNC: OK", 1)]
      else alerts

/-! ## Health (`TimeTop.health`) -/

/-- The mutable oscillator state carried across cycles: the rolling
histories (newest element last) plus the previous-offset and
previous-monotonic-time carry values. -/
structure OscState where
  offset_history : List ℚ
  rms_history : List ℚ
  freq_history : List ℚ
  skew_history : List ℚ
  last_offset : Option ℚ
  last_monotonic : ℚ
deriving Repr, DecidableEq

/-- `TimeTop.health`: returns the alert list and the updated carry state
(`last_monotonic`/`last_offset`).  When `offset_history` is empty the
method returns before touching the carry state. -/
def health (st : OscState) (now_m : ℚ) (sources? : Option (List SourceRecord))
    (ages? : Option Ages) : List (String × ℕ) × OscState :=
  let alerts :=
    match sources?, ages? with
    | some sources, some ages => chrony_sync_health sources ages
    | _, _ => []
  match st.offset_history.getLast? with
  | none => (alerts, st)
  | some lastOff =>
    let off_ms := pyAbsQ lastOff * 1000
    let rms_ms := pyAbsQ ((st.rms_history.getLast?).getD 0) * 1000
    let freq_ppm := pyAbsQ ((st.freq_history.getLast?).getD 0)
    let skew_ppm := pyAbsQ ((st.skew_history.getLast?).getD 0)
    let alerts := alerts ++
      (if off_ms > 50 then [("CLOCK STEP / LARGE OFFSET", 3)]
       else if off_ms > 10 then [("HIGH OFFSET", 2)]
       else []) ++
      (if rms_ms > 10 then [("JITTER (RMS HIGH)", 2)] else []) ++
      (if freq_ppm > 100 then [("DRIFT (FREQ HIGH)", 3)] else []) ++
      (if skew_ppm > 5 then [("UNSTABLE OSC (SKEW HIGH)", 2)] else [])
    let dt_m := now_m - st.last_monotonic
    let alerts := alerts ++
      (match st.last_offset with
       | some lo =>
         (if pyAbsQ (lastOff - lo) > 1/4 then [("TIME JUMP (OFFSET DELTA)", 3)] else []) ++
           (if dt_m > 15 then [("SUSPEND/PAUSE DETECTED (MONOTONIC GAP)", 3)] else [])
       | none => [])
    (alerts, { st with last_monotonic := now_m, last_offset := some lastOff })

/-! ## Call traces for the cache (used by the age claim) -/

/-- A call: query name, `time.monotonic()` at the call, and the fresh
`run_chronyc` output. -/
def stepCache (c : ChronyCache) (call : QueryName × ℚ × Option String) : ChronyCache :=
  (chronyc_cached c call.1 call.2.1 call.2.2).2

def runCache (c : ChronyCache) (calls : List (QueryName × ℚ × Option String)) : ChronyCache :=
  calls.foldl stepCache c

/-- Whether a single call actually runs the external command and accepts
its output (the branch that records `last_ok`). -/
def callFires (c : ChronyCache) (q : QueryName) (now : ℚ) (fresh : Option String) : Bool :=
  let e := getEntry c q
  (decide (now - e.last_try ≥ e.interval) || e.out.isNone) && acceptOut fresh

/-- Whether any call for query `q` in the trace succeeds (records a new
`last_ok`), threading the evolving cache state. -/
def traceOk (c : ChronyCache) (q : QueryName) : List (QueryName × ℚ × Option String) → Bool
  | [] => false
  | call :: rest =>
    (decide (call.1 = q) && callFires c call.1 call.2.1 call.2.2) ||
      traceOk (stepCache c call) q rest

/-! ## Helper lemmas about the trust scorer -/

lemma trustMode_eq (ms : String) (sf : ℤ × List String) :
    trustMode ms sf = (sf.1 + modeAdj ms, sf.2 ++ modeFlags ms) := by
  unfold trustMode modeAdj modeFlags
  by_cases h1 : hasChar ms '?' <;> by_cases h2 : hasChar ms 'x' <;>
    by_cases h3 : hasChar ms '~' <;> by_cases h4 : hasChar ms '*' <;>
    by_cases h5 : hasChar ms '+' <;>
    simp [h1, h2, h3, h4, h5] <;> omega

lemma trustReach_eq (r : Option ℕ) (sf : ℤ × List String) :
    trustReach r sf = (sf.1 + reachAdj r, sf.2 ++ reachFlags r) := by
  cases r <;> simp only [trustReach, reachAdj, reachFlags] <;> (try split_ifs) <;>
    (try simp [Prod.ext_iff]) <;> (try omega)

lemma trustRx_eq (rx : Option ℤ) (sf : ℤ × List String) :
    trustRx rx sf = (sf.1 + rxAdj rx, sf.2 ++ rxFlags rx) := by
  cases rx <;> simp only [trustRx, rxAdj, rxFlags] <;> (try split_ifs) <;>
    (try simp [Prod.ext_iff]) <;> (try omega)

lemma trustOff_eq (off : Option ℚ) (sf : ℤ × List String) :
    trustOff off sf = (sf.1 + offAdj off, sf.2 ++ offFlags off) := by
  cases off <;> simp only [trustOff, offAdj, offFlags] <;> (try split_ifs) <;>
    (try simp [Prod.ext_iff]) <;> (try omega)

lemma trustErr_eq (err : Option ℚ) (sf : ℤ × List String) :
    trustErr err sf = (sf.1 + errAdj err, sf.2 ++ errFlags err) := by
  cases err <;> simp only [trustErr, errAdj, errFlags] <;> (try split_ifs) <;>
    (try simp [Prod.ext_iff]) <;> (try omega)

lemma trustSd_eq (sd : Option ℚ) (sf : ℤ × List String) :
    trustSd sd sf = (sf.1 + sdAdj sd, sf.2 ++ sdFlags sd) := by
  cases sd <;> simp only [trustSd, sdAdj, sdFlags] <;> (try split_ifs) <;>
    (try simp [Prod.ext_iff]) <;> (try omega)

lemma trustFskew_eq (f : Option ℚ) (sf : ℤ × List String) :
    trustFskew f sf = (sf.1 + fskewAdj f, sf.2 ++ fskewFlags f) := by
  cases f <;> simp only [trustFskew, fskewAdj, fskewFlags] <;> (try split_ifs) <;>
    (try simp [Prod.ext_iff]) <;> (try omega)

lemma trustStratum_eq (st : Option ℤ) (sf : ℤ × List String) :
    trustStratum st sf = (sf.1 + stratumAdj st, sf.2 ++ stratumFlags st) := by
  cases st <;> simp only [trustStratum, stratumAdj, stratumFlags] <;> (try split_ifs) <;>
    (try simp [Prod.ext_iff]) <;> (try omega)

/-- The raw accumulated (score, flags) pair of `source_trust` equals the
independent-sum score and the category-ordered flag list. -/
lemma trust_core_eq (src : SourceRecord) :
    trustStratum src.stratum
        (trustFskew src.ss_fskew_ppm
          (trustSd src.ss_stddev_s
            (trustErr src.err_s
              (trustOff src.offset_s
                (trustRx src.last_rx
                  (trustReach src.reach (trustMode src.ms (100, [])))))))) =
      (100 + modeAdj src.ms + reachAdj src.reach + rxAdj src.last_rx +
          offAdj src.offset_s + errAdj src.err_s + sdAdj src.ss_stddev_s +
          fskewAdj src.ss_fskew_ppm + stratumAdj src.stratum,
        specFlagList src) := by
  rw [trustMode_eq, trustReach_eq, trustRx_eq, trustOff_eq, trustErr_eq,
    trustSd_eq, trustFskew_eq, trustStratum_eq]
  simp [specFlagList, List.append_assoc]

lemma source_trust_score_eq (src : SourceRecord) :
    (source_trust src).1 = specScore src := by
  unfold source_trust specScore
  rw [trust_core_eq]

lemma source_trust_flags_eq (src : SourceRecord) :
    (source_trust src).2.1 = specFlagList src := by
  unfold source_trust
  rw [trust_core_eq]

lemma mem_modeFlags_UNREACH (ms : String) :
    "UNREACH" ∈ modeFlags ms ↔ hasChar ms '?' = true := by
  unfold modeFlags
  split_ifs <;> simp_all

lemma mem_modeFlags_BAD (ms : String) :
    "BAD" ∈ modeFlags ms ↔ hasChar ms 'x' = true := by
  unfold modeFlags
  split_ifs <;> simp_all

lemma reachFlags_no_mode (r : Option ℕ) :
    "UNREACH" ∉ reachFlags r ∧ "BAD" ∉ reachFlags r := by
  cases r <;> simp only [reachFlags] <;> (try split_ifs) <;> (try simp)

lemma rxFlags_no_mode (rx : Option ℤ) :
    "UNREACH" ∉ rxFlags rx ∧ "BAD" ∉ rxFlags rx := by
  cases rx <;> simp only [rxFlags] <;> (try split_ifs) <;> (try simp)

lemma offFlags_no_mode (o : Option ℚ) :
    "UNREACH" ∉ offFlags o ∧ "BAD" ∉ offFlags o := by
  cases o <;> simp only [offFlags] <;> (try split_ifs) <;> (try simp)

lemma errFlags_no_mode (e : Option ℚ) :
    "UNREACH" ∉ errFlags e ∧ "BAD" ∉ errFlags e := by
  cases e <;> simp only [errFlags] <;> (try split_ifs) <;> (try simp)

lemma sdFlags_no_mode (sd : Option ℚ) :
    "UNREACH" ∉ sdFlags sd ∧ "BAD" ∉ sdFlags sd := by
  cases sd <;> simp only [sdFlags] <;> (try split_ifs) <;> (try simp)

lemma fskewFlags_no_mode (f : Option ℚ) :
    "UNREACH" ∉ fskewFlags f ∧ "BAD" ∉ fskewFlags f := by
  cases f <;> simp only [fskewFlags] <;> (try split_ifs) <;> (try simp)

lemma stratumFlags_no_mode (st : Option ℤ) :
    "UNREACH" ∉ stratumFlags st ∧ "BAD" ∉ stratumFlags st := by
  cases st <;> simp only [stratumFlags] <;> (try split_ifs) <;> (try simp)

lemma mem_specFlagList_UNREACH (src : SourceRecord) :
    "UNREACH" ∈ specFlagList src ↔ hasChar src.ms '?' = true := by
  unfold specFlagList
  simp only [List.mem_append]
  constructor
  · rintro (((((((h | h) | h) | h) | h) | h) | h) | h)
    · exact (mem_modeFlags_UNREACH src.ms).mp h
    · exact absurd h (reachFlags_no_mode src.reach).1
    · exact absurd h (rxFlags_no_mode src.last_rx).1
    · exact absurd h (offFlags_no_mode src.offset_s).1
    · exact absurd h (errFlags_no_mode src.err_s).1
    · exact absurd h (sdFlags_no_mode src.ss_stddev_s).1
    · exact absurd h (fskewFlags_no_mode src.ss_fskew_ppm).1
    · exact absurd h (stratumFlags_no_mode src.stratum).1
  · intro h
    exact Or.inl (Or.inl (Or.inl (Or.inl (Or.inl (Or.inl (Or.inl
      ((mem_modeFlags_UNREACH src.ms).mpr h)))))))

lemma mem_specFlagList_BAD (src : SourceRecord) :
    "BAD" ∈ specFlagList src ↔ hasChar src.ms 'x' = true := by
  unfold specFlagList
  simp only [List.mem_append]
  constructor
  · rintro (((((((h | h) | h) | h) | h) | h) | h) | h)
    · exact (mem_modeFlags_BAD src.ms).mp h
    · exact absurd h (reachFlags_no_mode src.reach).2
    · exact absurd h (rxFlags_no_mode src.last_rx).2
    · exact absurd h (offFlags_no_mode src.offset_s).2
    · exact absurd h (errFlags_no_mode src.err_s).2
    · exact absurd h (sdFlags_no_mode src.ss_stddev_s).2
    · exact absurd h (fskewFlags_no_mode src.ss_fskew_ppm).2
    · exact absurd h (stratumFlags_no_mode src.stratum).2
  · intro h
    exact Or.inl (Or.inl (Or.inl (Or.inl (Or.inl (Or.inl (Or.inl
      ((mem_modeFlags_BAD src.ms).mpr h)))))))

lemma source_trust_sev_eq (src : SourceRecord) :
    (source_trust src).2.2 = specSeverity src := by
  unfold source_trust specSeverity
  rw [trust_core_eq]
  have hU := mem_specFlagList_UNREACH src
  have hB := mem_specFlagList_BAD src
  have hscore :
      pyMax 0 (pyMin 100
          (100 + modeAdj src.ms + reachAdj src.reach + rxAdj src.last_rx +
            offAdj src.offset_s + errAdj src.err_s + sdAdj src.ss_stddev_s +
            fskewAdj src.ss_fskew_ppm + stratumAdj src.stratum)) = specScore src := rfl
  simp only [hscore]
  by_cases h1 : hasChar src.ms '?' <;> by_cases h2 : hasChar src.ms 'x' <;>
    simp_all

/-! ### Adjustment bounds (used for the hard-failure score bound) -/

lemma modeAdj_le_of_unreach {ms : String} (h : hasChar ms '?' = true) :
    modeAdj ms ≤ -48 := by
  simp only [modeAdj, h, if_true]
  split_ifs <;> omega

lemma offAdj_nonpos (o : Option ℚ) : offAdj o ≤ 0 := by
  cases o <;> simp only [offAdj] <;> (try split_ifs) <;> omega

lemma errAdj_nonpos (e : Option ℚ) : errAdj e ≤ 0 := by
  cases e <;> simp only [errAdj] <;> (try split_ifs) <;> omega

lemma sdAdj_nonpos (sd : Option ℚ) : sdAdj sd ≤ 0 := by
  cases sd <;> simp only [sdAdj] <;> (try split_ifs) <;> omega

lemma fskewAdj_nonpos (f : Option ℚ) : fskewAdj f ≤ 0 := by
  cases f <;> simp only [fskewAdj] <;> (try split_ifs) <;> omega

lemma stratumAdj_le_two (st : Option ℤ) : stratumAdj st ≤ 2 := by
  cases st <;> simp only [stratumAdj] <;> (try split_ifs) <;> omega

/-! ## Claim C1 -/

/-- C1: the Trust Scorer is a pure function of one merged `SourceRecord`
that starts at 100, applies exactly the specified per-category
adjustments (the tiers inside one category are mutually exclusive, read
top-down, as in the source's `elif` chains), clamps the result to
[0, 100], and assigns severity ok iff the clamped score is ≥ 80 with
neither the unreachable (`?`) nor the bad (`x`) marker — equivalently,
with neither the UNREACH nor the BAD flag — warn iff the score is ≥ 55
otherwise, else critical; and in particular every record with the `?`
mode-state marker, reachability register 0 and absent last-receive age
scores below 40 and carries both the UNREACH and the RCH=0 flags. -/
theorem trust_scorer_matches_spec :
    (∀ src : SourceRecord,
        (source_trust src).1 = specScore src ∧
          (source_trust src).2.2 = specSeverity src) ∧
      ∀ src : SourceRecord,
        hasChar src.ms '?' = true → src.reach = some 0 → src.last_rx = none →
          (source_trust src).1 < 40 ∧ "UNREACH" ∈ (source_trust src).2.1 ∧
            "RCH=0" ∈ (source_trust src).2.1 := by
  constructor
  · exact fun src => ⟨source_trust_score_eq src, source_trust_sev_eq src⟩
  · intro src h hr hrx
    have hsc := source_trust_score_eq src
    have hfl := source_trust_flags_eq src
    refine ⟨?_, ?_, ?_⟩
    · rw [hsc]
      unfold specScore pyMax pyMin
      have h1 := modeAdj_le_of_unreach h
      have h2 : reachAdj src.reach = -45 := by rw [hr]; rfl
      have h3 : rxAdj src.last_rx = -10 := by rw [hrx]; rfl
      have h4 := offAdj_nonpos src.offset_s
      have h5 := errAdj_nonpos src.err_s
      have h6 := sdAdj_nonpos src.ss_stddev_s
      have h7 := fskewAdj_nonpos src.ss_fskew_ppm
      have h8 := stratumAdj_le_two src.stratum
      split_ifs <;> omega
    · rw [hfl]
      exact (mem_specFlagList_UNREACH src).mpr h
    · rw [hfl]
      unfold specFlagList
      rw [hr]
      simp [reachFlags]

/-- Record used to instantiate the C1 theorem: a sources-table line with
mode-state `?`, reachability `000` and no receive age (all other fields
absent). -/
def exUnreach : SourceRecord :=
  { ms := "?", name := "bad.example", key := "bad.example", stratum := none,
    poll := none, reach := some 0, reach_octal := "0", last_rx := none,
    offset_s := none, err_s := none, ss_np := none, ss_nr := none,
    ss_span_s := none, ss_freq_ppm := none, ss_fskew_ppm := none,
    ss_offset_s := none, ss_stddev_s := none, raw := "" }

/-- Witness for C1 at `exUnreach`. -/
theorem trust_scorer_matches_spec_witness :
    (source_trust exUnreach).1 = specScore exUnreach ∧
      (source_trust exUnreach).1 < 40 ∧
      "UNREACH" ∈ (source_trust exUnreach).2.1 ∧
      "RCH=0" ∈ (source_trust exUnreach).2.1 :=
  ⟨(trust_scorer_matches_spec.1 exUnreach).1,
    trust_scorer_matches_spec.2 exUnreach (by decide) (by decide) (by decide)⟩

/-! ## Claim C6 -/

/-- C6 (amended): every Trust Scorer deduction that fires appends its
flag code, in rule-evaluation order, **except** four silent deductions:
measured offset between 2 ms and 10 ms (−5), absent frequency-skew
(−3), frequency-skew between 0.5 and 1 ppm (−3), and absent stratum
(−3) reduce the score without appending a flag.  `specFlagList` records
exactly the flags of the non-silent firing rules, category by category
in evaluation order. -/
theorem trust_flags_follow_rules :
    ∀ src : SourceRecord, (source_trust src).2.1 = specFlagList src :=
  source_trust_flags_eq

/-- Record with a single firing deduction, the silent 2–10 ms offset
penalty: no bonus markers (`ms = ""`), stratum 3 (no bonus), and every
other category in its no-deduction tier. -/
def exSilent : SourceRecord :=
  { ms := "", name := "a", key := "a", stratum := some 3, poll := some 6,
    reach := some 255, reach_octal := "377", last_rx := some 1,
    offset_s := some (5 / 1000), err_s := none, ss_np := none, ss_nr := none,
    ss_span_s := none, ss_freq_ppm := none, ss_fskew_ppm := some (1 / 10),
    ss_offset_s := none, ss_stddev_s := some (1 / 2000), raw := "" }

/-- `exSilent` with the measured offset lowered to 1 ms (below the 2 ms
tier). -/
def exSilent2 : SourceRecord :=
  { exSilent with offset_s := some (1 / 1000) }

/-- Counterexample to C6 as stated: on `exSilent` the score drops from
100 to 95 (the measured-offset rule `2 < |off| ≤ 10` ms fires) yet the
flag list stays empty; the identical record with a 1 ms offset scores
100, isolating the silent rule. -/
theorem trust_silent_deduction_cex :
    source_trust exSilent = (95, [], 1) ∧ source_trust exSilent2 = (100, [], 1) := by
  constructor <;> decide

/-! ## Claim C2 -/

/-- C2: when a cached query is due (refresh interval elapsed since the
last attempt, or no output cached) and the fresh output is absent,
blank, or matches an error signature, the call leaves the stored output
and the last-success timestamp unchanged while the last-attempt
timestamp advances to the current time. -/
theorem cached_query_retains_on_error (c : ChronyCache) (q : QueryName) (now : ℚ)
    (fresh : Option String)
    (hdue : now - (getEntry c q).last_try ≥ (getEntry c q).interval ∨
      (getEntry c q).out = none)
    (herr : fresh = none ∨ ∃ s, fresh = some s ∧
      (pyStrip s = "" ∨ chrony_out_is_error s = true)) :
    (getEntry (chronyc_cached c q now fresh).2 q).out = (getEntry c q).out ∧
      (getEntry (chronyc_cached c q now fresh).2 q).last_ok = (getEntry c q).last_ok ∧
      (getEntry (chronyc_cached c q now fresh).2 q).last_try = now := by
  have haccept : acceptOut fresh = false := by
    rcases herr with rfl | ⟨s, rfl, hs⟩
    · rfl
    · rcases hs with hs | hs <;> simp [acceptOut, hs]
  have hstep : cachedStep (getEntry c q) now fresh =
      { getEntry c q with last_try := now } := by
    unfold cachedStep
    rw [if_pos hdue, haccept]
    simp
  have hget : ∀ e, getEntry (setEntry c q e) q = e := by
    intro e; cases q <;> rfl
  simp [chronyc_cached, hget, hstep]

/-- Witness for C2: entry with cached output `"x"`, stale attempt
timestamp, fresh output carrying the `506` error signature. -/
theorem cached_query_retains_on_error_witness :
    (getEntry (chronyc_cached
        { initCache with tracking := { out := some "x", last_try := 0, last_ok := 3, interval := 1 } }
        QueryName.tracking 5 (some "506 Cannot talk to daemon")).2
      QueryName.tracking).out = some "x" ∧
    (getEntry (chronyc_cached
        { initCache with tracking := { out := some "x", last_try := 0, last_ok := 3, interval := 1 } }
        QueryName.tracking 5 (some "506 Cannot talk to daemon")).2
      QueryName.tracking).last_ok = 3 ∧
    (getEntry (chronyc_cached
        { initCache with tracking := { out := some "x", last_try := 0, last_ok := 3, interval := 1 } }
        QueryName.tracking 5 (some "506 Cannot talk to daemon")).2
      QueryName.tracking).last_try = 5 :=
  cached_query_retains_on_error _ QueryName.tracking 5 _
    (Or.inl (by decide))
    (Or.inr ⟨"506 Cannot talk to daemon", rfl, Or.inr (by decide)⟩)

/-! ## Claim C10 -/

set_option maxRecDepth 4000 in
/-- C10: for every reachability register r in [0, 255], decoding r into
its newest-first 8-bit dot sequence (as `reach_dots` draws it, newest
poll leftmost) and re-encoding that sequence recovers exactly r. -/
theorem reach_dots_roundtrip :
    ∀ r : Fin 256, dots_to_reach (reach_dots (some r.val) true) = r.val := by
  decide

/-! ## Claim C9 -/

lemma getEntry_setEntry_same (c : ChronyCache) (q : QueryName) (e : CacheEntry) :
    getEntry (setEntry c q e) q = e := by
  cases q <;> rfl

lemma getEntry_setEntry_other (c : ChronyCache) (q' q : QueryName) (e : CacheEntry)
    (h : q' ≠ q) : getEntry (setEntry c q' e) q = getEntry c q := by
  cases q' <;> cases q <;> first | rfl | exact absurd rfl h

lemma getEntry_stepCache_same (c : ChronyCache) (now : ℚ) (fresh : Option String)
    (q : QueryName) :
    getEntry (stepCache c (q, now, fresh)) q = cachedStep (getEntry c q) now fresh := by
  unfold stepCache chronyc_cached
  exact getEntry_setEntry_same ..

lemma getEntry_stepCache_other (c : ChronyCache) (now : ℚ) (fresh : Option String)
    (q' q : QueryName) (h : q' ≠ q) :
    getEntry (stepCache c (q', now, fresh)) q = getEntry c q := by
  unfold stepCache chronyc_cached
  exact getEntry_setEntry_other _ _ _ _ h

lemma cachedStep_last_ok (e : CacheEntry) (now : ℚ) (fresh : Option String) :
    (cachedStep e now fresh).last_ok =
      if ((decide (now - e.last_try ≥ e.interval) || e.out.isNone) && acceptOut fresh) = true
      then now else e.last_ok := by
  unfold cachedStep
  by_cases h1 : now - e.last_try ≥ e.interval ∨ e.out = none
  · rw [if_pos h1]
    have hb1 : (decide (now - e.last_try ≥ e.interval) || e.out.isNone) = true := by
      rcases h1 with h1 | h1 <;> simp [h1, Option.isNone_iff_eq_none]
    by_cases h2 : acceptOut fresh = true
    · rw [if_pos h2, hb1, h2]
      simp
    · have hb2 : acceptOut fresh = false := by simpa using h2
      rw [if_neg (by simp [hb2] : ¬ acceptOut fresh = true), hb1, hb2]
      simp
  · rw [if_neg h1]
    push_neg at h1
    have hb1 : (decide (now - e.last_try ≥ e.interval) || e.out.isNone) = false := by
      have hnone : e.out.isNone = false := by
        cases ho : e.out <;> simp_all
      simp [hnone, h1.1]
    rw [hb1]
    simp

/-- Invariant induction: after running a trace of calls at positive
monotonic times, a query's `last_ok` is positive iff it was positive
before or some call for that query succeeded. -/
lemma runCache_last_ok_pos (q : QueryName) :
    ∀ (calls : List (QueryName × ℚ × Option String)) (c : ChronyCache),
      (∀ x ∈ calls, 0 < x.2.1) → 0 ≤ (getEntry c q).last_ok →
      (0 < (getEntry (runCache c calls) q).last_ok ↔
        0 < (getEntry c q).last_ok ∨ traceOk c q calls = true) := by
  intro calls
  induction calls with
  | nil => intro c _ _; simp [runCache, traceOk]
  | cons call rest ih =>
    intro c hpos h0
    obtain ⟨q', now, fr⟩ := call
    have hnow : 0 < now := hpos _ (List.mem_cons_self ..)
    have hrest : ∀ x ∈ rest, 0 < x.2.1 := fun x hx => hpos x (List.mem_cons_of_mem _ hx)
    have hrun : runCache c ((q', now, fr) :: rest) = runCache (stepCache c (q', now, fr)) rest := rfl
    by_cases hq : q' = q
    · subst hq
      have hget := getEntry_stepCache_same c now fr q'
      have h0' : 0 ≤ (getEntry (stepCache c (q', now, fr)) q').last_ok := by
        rw [hget, cachedStep_last_ok]
        split_ifs
        · linarith
        · exact h0
      have := ih (stepCache c (q', now, fr)) hrest h0'
      rw [hrun, this, hget, cachedStep_last_ok]
      have hfire : callFires c q' now fr =
          ((decide (now - (getEntry c q').last_try ≥ (getEntry c q').interval) ||
            (getEntry c q').out.isNone) && acceptOut fr) := rfl
      simp only [traceOk, decide_eq_true_eq, hfire]
      by_cases hf : ((decide (now - (getEntry c q').last_try ≥ (getEntry c q').interval) ||
          (getEntry c q').out.isNone) && acceptOut fr) = true
      · simp [hf, hnow]
      · have hf' : ((decide (now - (getEntry c q').last_try ≥ (getEntry c q').interval) ||
            (getEntry c q').out.isNone) && acceptOut fr) = false := by simpa using hf
        simp [hf']
    · have hget := getEntry_stepCache_other c now fr q' q hq
      have h0' : 0 ≤ (getEntry (stepCache c (q', now, fr)) q).last_ok := by rw [hget]; exact h0
      have := ih (stepCache c (q', now, fr)) hrest h0'
      rw [hrun, this, hget]
      have : (decide (q' = q) && callFires c q' now fr) = false := by simp [hq]
      simp only [traceOk, this, Bool.false_or]

/-- C9: for each of the three known query names, starting from the
initial cache and running any sequence of cached calls at positive
monotonic timestamps, `chrony_age` returns infinity iff no call for
that query ever succeeded, and otherwise returns a finite non-negative
age. -/
theorem chrony_age_infinity_iff (calls : List (QueryName × ℚ × Option String))
    (q : QueryName) (now' : ℚ) (hpos : ∀ x ∈ calls, 0 < x.2.1) :
    (chrony_age (runCache initCache calls) q now' = AgeVal.infty ↔
      traceOk initCache q calls = false) ∧
    (traceOk initCache q calls = true →
      ∃ t, chrony_age (runCache initCache calls) q now' = AgeVal.fin t ∧ 0 ≤ t) := by
  have h0 : (getEntry initCache q).last_ok = 0 := by cases q <;> rfl
  have key := runCache_last_ok_pos q calls initCache hpos (le_of_eq h0.symm)
  rw [h0] at key
  simp only [lt_irrefl, false_or] at key
  unfold chrony_age
  by_cases hL : (getEntry (runCache initCache calls) q).last_ok ≤ 0
  · rw [if_pos hL]
    have hnotrace : traceOk initCache q calls = false := by
      rcases Bool.eq_false_or_eq_true (traceOk initCache q calls) with h | h
      · exact absurd (key.mpr h) (not_lt.mpr hL)
      · exact h
    constructor
    · simp [hnotrace]
    · intro h; rw [hnotrace] at h; cases h
  · rw [if_neg hL]
    have htrace : traceOk initCache q calls = true := key.mp (lt_of_not_le hL)
    constructor
    · simp [htrace]
    · intro _
      refine ⟨pyMaxQ 0 (now' - (getEntry (runCache initCache calls) q).last_ok), rfl, ?_⟩
      unfold pyMaxQ
      split_ifs <;> linarith

/-- Witness for C9: a single successful `tracking` call at time 1; at
time 3 the age is the finite value 2. -/
theorem chrony_age_infinity_iff_witness :
    chrony_age (runCache initCache [(QueryName.tracking, 1, some "x")]) QueryName.tracking 3 ≠
      AgeVal.infty ∧
    traceOk initCache QueryName.tracking [(QueryName.tracking, 1, some "x")] = true := by
  have h := (chrony_age_infinity_iff [(QueryName.tracking, 1, some "x")]
    QueryName.tracking 3 (by intro x hx; simp at hx; rw [hx]; norm_num)).1
  have htrace : traceOk initCache QueryName.tracking [(QueryName.tracking, 1, some "x")] = true := by
    decide
  refine ⟨?_, htrace⟩
  intro hinf
  rw [h.mp hinf] at htrace
  cases htrace

/-! ## Claim C3 -/

/-- C3: with all three cache ages finite and below their staleness
thresholds (5 s / 15 s / 60 s), an empty parsed source list yields
exactly the one critical no-sources alert; and a non-empty list with
zero reachable and zero selected sources yields a result containing
both the critical zero-reachable alert and the critical
no-selected-source alert, two distinct alerts. -/
theorem sync_health_alerts (t1 t2 t3 : ℚ) (sources : List SourceRecord)
    (h1 : t1 < 5) (h2 : t2 < 15) (h3 : t3 < 60) :
    (sources = [] →
      chrony_sync_health sources ⟨.fin t1, .fin t2, .fin t3⟩ =
        [("NO NTP SOURCES PARSED", 3)]) ∧
    (sources ≠ [] → countReachable sources = 0 → countSelected sources = 0 →
      ("NO REACHABLE NTP SOURCES (reach=0 across all)", 3) ∈
          chrony_sync_health sources ⟨.fin t1, .fin t2, .fin t3⟩ ∧
        ("NO SELECTED SOURCE (* missing) — UNSYNCED", 3) ∈
          chrony_sync_health sources ⟨.fin t1, .fin t2, .fin t3⟩ ∧
        (("NO REACHABLE NTP SOURCES (reach=0 across all)", 3) : String × ℕ) ≠
          ("NO SELECTED SOURCE (* missing) — UNSYNCED", 3)) := by
  have hg1 : ageGT (AgeVal.fin t1) 5 = false := by
    simp [ageGT]; linarith
  have hg2 : ageGT (AgeVal.fin t2) 15 = false := by
    simp [ageGT]; linarith
  have hg3 : ageGT (AgeVal.fin t3) 60 = false := by
    simp [ageGT]; linarith
  have hinf : ¬(AgeVal.fin t1 = AgeVal.infty ∨ AgeVal.fin t2 = AgeVal.infty) := by
    simp
  constructor
  · intro hs
    subst hs
    simp [chrony_sync_health, hinf, hg1, hg2, hg3]
  · intro hne hr hsel
    obtain ⟨s0, rest, rfl⟩ : ∃ s0 rest, sources = s0 :: rest := by
      cases sources with
      | nil => exact absurd rfl hne
      | cons s0 rest => exact ⟨s0, rest, rfl⟩
    simp only [chrony_sync_health, hinf, hg1, hg2, hg3, if_neg, if_false,
      Bool.false_eq_true, List.nil_append, List.append_nil, if_true]
    rw [hr, hsel]
    have hcons : ¬(s0 :: rest : List SourceRecord) = [] := by simp
    simp only [hcons, if_false]
    refine ⟨?_, ?_, by decide⟩ <;> split_ifs <;> simp_all

/-- Record with zero reach and no markers, used to instantiate C3. -/
def exNoReach : SourceRecord :=
  { ms := "^-", name := "n", key := "n", stratum := some 2, poll := some 6,
    reach := some 0, reach_octal := "0", last_rx := some 10, offset_s := some 0,
    err_s := some 0, ss_np := none, ss_nr := none, ss_span_s := none,
    ss_freq_ppm := none, ss_fskew_ppm := none, ss_offset_s := none,
    ss_stddev_s := none, raw := "" }

/-- Witness for C3 at concrete fresh ages, on the empty list and on
`[exNoReach]`. -/
theorem sync_health_alerts_witness :
    chrony_sync_health [] ⟨.fin 1, .fin 2, .fin 3⟩ = [("NO NTP SOURCES PARSED", 3)] ∧
      ("NO REACHABLE NTP SOURCES (reach=0 across all)", 3) ∈
        chrony_sync_health [exNoReach] ⟨.fin 1, .fin 2, .fin 3⟩ ∧
      ("NO SELECTED SOURCE (* missing) — UNSYNCED", 3) ∈
        chrony_sync_health [exNoReach] ⟨.fin 1, .fin 2, .fin 3⟩ :=
  ⟨(sync_health_alerts 1 2 3 [] (by norm_num) (by norm_num) (by norm_num)).1 rfl,
    ((sync_health_alerts 1 2 3 [exNoReach] (by norm_num) (by norm_num) (by norm_num)).2
      (by decide) (by decide) (by decide)).1,
    ((sync_health_alerts 1 2 3 [exNoReach] (by norm_num) (by norm_num) (by norm_num)).2
      (by decide) (by decide) (by decide)).2.1⟩

/-! ## Claim C7 -/

/-- C7 (amended): whenever at least one tracking sample exists **and a
previous offset sample has been recorded**, the health evaluation emits
the critical suspend/pause alert in every cycle whose elapsed monotonic
time since the previous check exceeds 15 seconds (independently of the
offset-delta value).  When no previous offset sample has been recorded
the monotonic-gap check is skipped, because the source nests it inside
the `last_offset is not None` branch. -/
theorem suspend_alert_when_prev_offset (st : OscState) (now_m : ℚ)
    (sources? : Option (List SourceRecord)) (ages? : Option Ages) (lo : ℚ)
    (hhist : st.offset_history ≠ []) (hprev : st.last_offset = some lo)
    (hdt : now_m - st.last_monotonic > 15) :
    ("SUSPEND/PAUSE DETECTED (MONOTONIC GAP)", 3) ∈
      (health st now_m sources? ages?).1 := by
  obtain ⟨lastOff, hlast⟩ : ∃ v, st.offset_history.getLast? = some v := by
    cases hh : st.offset_history.getLast? with
    | none => exact absurd (List.getLast?_eq_none_iff.mp hh) hhist
    | some v => exact ⟨v, rfl⟩
  unfold health
  rw [hlast]
  simp only [hprev, List.mem_append]
  right
  rw [if_pos hdt]
  simp

/-- Witness for C7 at a concrete state: one tracking sample, previous
offset recorded, 20 s monotonic gap. -/
theorem suspend_alert_when_prev_offset_witness :
    ("SUSPEND/PAUSE DETECTED (MONOTONIC GAP)", 3) ∈
      (health ⟨[0], [], [], [], some 0, 0⟩ 20 none none).1 :=
  suspend_alert_when_prev_offset ⟨[0], [], [], [], some 0, 0⟩ 20 none none 0
    (by decide) rfl (by norm_num)

/-- Counterexample to C7 as stated: with one tracking sample but **no**
previous offset sample, a 20 s monotonic gap produces no alert at all —
the suspend/pause check is not independent of the previous-offset
carry. -/
theorem suspend_alert_missing_cex :
    (health ⟨[0], [], [], [], none, 0⟩ 20 none none).1 = [] := by
  decide

/-! ## Claim C5 -/

/-- Source-record builder for the noise-detector examples: only the
mode-state and the regression stddev matter to the detector. -/
def noiseSrc (ms : String) (sd : Option ℚ) : SourceRecord :=
  { ms := ms, name := "n", key := "n", stratum := some 2, poll := some 6,
    reach := some 255, reach_octal := "377", last_rx := some 10,
    offset_s := some 0, err_s := some 0, ss_np := none, ss_nr := none,
    ss_span_s := none, ss_freq_ppm := none, ss_fskew_ppm := none,
    ss_offset_s := none, ss_stddev_s := sd, raw := "" }

/-- C5: on a non-empty source list the noise detector picks as reference
the first record with a `*` marker, else the first record; it reports
insufficient data when the reference has no regression stddev or fewer
than two records have one; otherwise it classifies OUTLIER iff
`ratio ≥ 3 ∧ gap_ms ≥ 0.50`, ELEVATED iff not OUTLIER and
`ratio ≥ 2 ∧ gap_ms ≥ 0.20`, else OK, with
`ratio = ref_sd / max(median, 50 µs)` and `gap_ms` the reference-median
gap in milliseconds; in particular a 5 ms reference among four 1 ms
sources is OUTLIER and a 1.2 ms reference among two 1 ms sources is
OK. -/
theorem network_noise_classification :
    (∀ (s0 : SourceRecord) (rest : List SourceRecord),
        pickRef (s0 :: rest) =
          some (((s0 :: rest).find? (fun s => hasChar s.ms '*')).getD s0)) ∧
    (∀ (s0 : SourceRecord) (rest : List SourceRecord) (sel : SourceRecord),
        pickRef (s0 :: rest) = some sel → sel.ss_stddev_s = none →
        network_noise_indicator (s0 :: rest) =
          ("Net noise: no sourcestats stddev for selected", 2)) ∧
    (∀ (s0 : SourceRecord) (rest : List SourceRecord) (sel : SourceRecord) (v : ℚ),
        pickRef (s0 :: rest) = some sel → sel.ss_stddev_s = some v →
        ((s0 :: rest).filterMap (fun s => s.ss_stddev_s)).length < 2 →
        network_noise_indicator (s0 :: rest) =
          ("Net noise: insufficient sources with stddev", 2)) ∧
    (∀ (s0 : SourceRecord) (rest : List SourceRecord) (sel : SourceRecord) (v : ℚ),
        pickRef (s0 :: rest) = some sel → sel.ss_stddev_s = some v →
        2 ≤ ((s0 :: rest).filterMap (fun s => s.ss_stddev_s)).length →
        network_noise_indicator (s0 :: rest) =
          (if v / pyMaxQ (median ((s0 :: rest).filterMap (fun s => s.ss_stddev_s)))
                  (50 / 1000000) ≥ 3 ∧
              v * 1000 - median ((s0 :: rest).filterMap (fun s => s.ss_stddev_s)) * 1000 ≥ 1/2
           then ("Net noise: OUTLIER", 3)
           else if v / pyMaxQ (median ((s0 :: rest).filterMap (fun s => s.ss_stddev_s)))
                  (50 / 1000000) ≥ 2 ∧
              v * 1000 - median ((s0 :: rest).filterMap (fun s => s.ss_stddev_s)) * 1000 ≥ 1/5
           then ("Net noise: ELEVATED", 2)
           else ("Net noise: OK", 1))) ∧
    network_noise_indicator
        [noiseSrc "^*" (some (5/1000)), noiseSrc "^-" (some (1/1000)),
          noiseSrc "^-" (some (1/1000)), noiseSrc "^-" (some (1/1000)),
          noiseSrc "^-" (some (1/1000))] = ("Net noise: OUTLIER", 3) ∧
    network_noise_indicator
        [noiseSrc "^*" (some (12/10000)), noiseSrc "^-" (some (1/1000)),
          noiseSrc "^-" (some (1/1000))] = ("Net noise: OK", 1) := by
  refine ⟨?_, ?_, ?_, ?_, by decide, by decide⟩
  · intro s0 rest
    cases hf : (s0 :: rest).find? (fun s => hasChar s.ms '*') <;>
      simp [pickRef, hf]
  · intro s0 rest sel hpick hsd
    simp only [network_noise_indicator, hpick, hsd]
  · intro s0 rest sel v hpick hsd hlen
    simp only [network_noise_indicator, hpick, hsd]
    rw [if_pos hlen]
  · intro s0 rest sel v hpick hsd hlen
    simp only [network_noise_indicator, hpick, hsd]
    rw [if_neg (not_lt.mpr hlen)]

/-- Witness for C5: a 2.5 ms reference among two 1 ms sources gives
ratio 2.5 and gap 1.5 ms, hence ELEVATED, via the classification part of
the theorem. -/
theorem network_noise_classification_witness :
    network_noise_indicator
        [noiseSrc "^*" (some (25/10000)), noiseSrc "^-" (some (1/1000)),
          noiseSrc "^-" (some (1/1000))] = ("Net noise: ELEVATED", 2) := by
  have h := network_noise_classification.2.2.2.1
    (noiseSrc "^*" (some (25/10000)))
    [noiseSrc "^-" (some (1/1000)), noiseSrc "^-" (some (1/1000))]
    (noiseSrc "^*" (some (25/10000))) (25/10000)
    (by decide) (by decide) (by decide)
  exact h.trans (by decide)

/-! ## Claim C4 -/

lemma search_float_none_ok {label l : List Char} (h : searchLabel label l = none) :
    search_float label l = .ok none := by
  unfold search_float
  rw [h]

lemma trackOffset_eq_match {l : List Char} {g : List Char} {dir : Bool}
    (h : searchSystime l = some (g, dir)) :
    trackOffset l =
      match pyFloatDotTok g with
      | some v => .ok (some (if dir then v else -v))
      | none => .error () := by
  unfold trackOffset
  rw [h]

lemma trackOffset_eq_none {l : List Char} (h : searchSystime l = none) :
    trackOffset l = .ok none := by
  unfold trackOffset
  rw [h]

/-- C4 (amended): the tracking parser returns absent iff the whole
input is empty; whenever it returns a record (no `float` conversion
raised), the offset is the parsed magnitude negated for direction
`slow` and kept for `fast`, and each of the offset/RMS/frequency/skew
fields is 0.0 when its labeled line is not found; on the two spec
examples it yields −0.000123456 and +0.000123456.  (For every non-empty
input it returns a record **or raises**: a matched numeric group such
as a lone `.` makes Python's `float` raise `ValueError`, so the
original claim's "always returns a record" fails; see the
counterexample.) -/
theorem tracking_parser_offset_sign :
    (∀ s : String, parse_tracking s = .ok none ↔ s = "") ∧
    (∀ (s : String) (t : TrackingRec), parse_tracking s = .ok (some t) →
        (∀ g : List Char, searchSystime s.data = some (g, false) →
            ∃ v, pyFloatDotTok g = some v ∧ t.offset = -v) ∧
        (∀ g : List Char, searchSystime s.data = some (g, true) →
            ∃ v, pyFloatDotTok g = some v ∧ t.offset = v) ∧
        (searchSystime s.data = none → t.offset = 0) ∧
        (searchLabel "RMS offset".data s.data = none → t.rms = 0) ∧
        (searchLabel "Frequency".data s.data = none → t.freq = 0) ∧
        (searchLabel "Skew".data s.data = none → t.skew = 0)) ∧
    parse_tracking "System time     : 0.000123456 seconds slow" =
      .ok (some ⟨-(123456/1000000000), 0, 0, 0⟩) ∧
    parse_tracking "System time     : 0.000123456 seconds fast" =
      .ok (some ⟨123456/1000000000, 0, 0, 0⟩) := by
  refine ⟨?_, ?_, by rfl, by rfl⟩
  · intro s
    constructor
    · intro h
      by_contra hne
      unfold parse_tracking at h
      rw [if_neg hne] at h
      split at h <;> simp_all
    · rintro rfl
      rfl
  · intro s t h
    by_cases hs : s = ""
    · rw [hs] at h
      exact absurd (Except.ok.inj h) (by simp)
    · unfold parse_tracking at h
      rw [if_neg hs] at h
      split at h
      case _ o r f k hoff hrms hfrq hskw =>
        have ht := Option.some.inj (Except.ok.inj h)
        subst ht
        refine ⟨?_, ?_, ?_, ?_, ?_, ?_⟩
        · intro g hsys
          rw [trackOffset_eq_match hsys] at hoff
          cases hfl : pyFloatDotTok g with
          | none => rw [hfl] at hoff; cases hoff
          | some v =>
            rw [hfl] at hoff
            refine ⟨v, rfl, ?_⟩
            simp only [Bool.false_eq_true, if_false] at hoff
            rw [← Except.ok.inj hoff]
            rfl
        · intro g hsys
          rw [trackOffset_eq_match hsys] at hoff
          cases hfl : pyFloatDotTok g with
          | none => rw [hfl] at hoff; cases hoff
          | some v =>
            rw [hfl] at hoff
            refine ⟨v, rfl, ?_⟩
            simp only [if_true] at hoff
            rw [← Except.ok.inj hoff]
            rfl
        · intro hsys
          rw [trackOffset_eq_none hsys] at hoff
          rw [← Except.ok.inj hoff]
          rfl
        · intro hnone
          rw [← Except.ok.inj ((search_float_none_ok hnone).symm.trans hrms)]
          rfl
        · intro hnone
          rw [← Except.ok.inj ((search_float_none_ok hnone).symm.trans hfrq)]
          rfl
        · intro hnone
          rw [← Except.ok.inj ((search_float_none_ok hnone).symm.trans hskw)]
          rfl
      case _ =>
        cases h

/-- Counterexample to C4 as stated: the non-empty input
`"RMS offset : ."` makes the RMS pattern match the group `"."`, on
which Python's `float` raises `ValueError`, so the parser does not
return a record (modelled as `.error ()`). -/
theorem tracking_parser_raises_cex :
    parse_tracking "RMS offset : ." = .error () ∧ ("RMS offset : ." : String) ≠ "" := by
  constructor
  · rfl
  · decide

/-- Witness for C4 on a tracking report containing only a `fast` system
time line: the theorem's field clauses instantiate to offset
+0.00005 and zeroed RMS/frequency/skew. -/
theorem tracking_parser_offset_sign_witness :
    parse_tracking "System time : 0.00005 seconds fast of NTP time" =
      .ok (some ⟨5/100000, 0, 0, 0⟩) ∧
    (∃ v, pyFloatDotTok "0.00005".data = some v ∧
      (⟨5/100000, 0, 0, 0⟩ : TrackingRec).offset = v) := by
  have hp : parse_tracking "System time : 0.00005 seconds fast of NTP time" =
      .ok (some ⟨5/100000, 0, 0, 0⟩) := by rfl
  refine ⟨hp, ?_⟩
  have h := (tracking_parser_offset_sign.2.1 _ _ hp).2.1 "0.00005".data (by decide)
  exact h

/-! ## Claim C8 -/

/-- C8 (amended): every `SourceRecord` produced by the sources parser
has a reachability register that is either an explicit absent marker
(when the column is not a non-empty string of octal digits) or the
non-negative base-8 value of the column — which the parser does **not**
clamp to [0, 255]: a column with four or more octal digits (e.g.
`7777`) yields a value above 255 (see the counterexample). -/
theorem sources_reach_octal_value :
    ∀ (out : String) (rec : SourceRecord), rec ∈ parse_sources_v out →
      rec.reach =
        (if isOctalTok rec.reach_octal.data then some (natOfDigits 8 rec.reach_octal.data)
         else none) := by
  intro out rec hmem
  unfold parse_sources_v at hmem
  by_cases hout : out = ""
  · rw [if_pos hout] at hmem
    cases hmem
  · rw [if_neg hout] at hmem
    rw [List.mem_filterMap] at hmem
    obtain ⟨ln, _, hln⟩ := hmem
    unfold parseSourceLine at hln
    by_cases hlen : (splitWsC ln).length < 6
    · rw [if_pos hlen] at hln
      cases hln
    · rw [if_neg hlen] at hln
      obtain rfl := Option.some.inj hln
      rfl

/-- `sources -v` output whose reachability column `7777` has four octal
digits (a table header, a divider and one data line). -/
def exSourcesOut : String :=
  "MS Name/IP address Stratum Poll Reach LastRx Last sample\n====\n#* GPS0 0 4 7777 21 -479ns[ -621ns] +/- 134ns\n"

/-- Counterexample to C8 as stated: the parser accepts the reachability
column `7777` and stores 0o7777 = 4095, outside [0, 255]. -/
theorem sources_reach_above_255_cex :
    (parse_sources_v exSourcesOut).map (fun r => r.reach) = [some 4095] ∧ 255 < 4095 := by
  constructor
  · rfl
  · decide

/-- Witness for C8: on `exSourcesOut`, applying the theorem to every
parsed record rewrites each register to the octal value of its column;
the parse is non-empty. -/
theorem sources_reach_octal_value_witness :
    ((parse_sources_v exSourcesOut).map (fun r => r.reach) =
      (parse_sources_v exSourcesOut).map (fun r =>
        if isOctalTok r.reach_octal.data then some (natOfDigits 8 r.reach_octal.data)
        else none)) ∧
    (parse_sources_v exSourcesOut).length = 1 := by
  refine ⟨?_, by rfl⟩
  exact List.map_congr_left (fun r hr => sources_reach_octal_value exSourcesOut r hr)

end ChronyTop
